import Mathlib

/- Shallow embedding of the NetBox administrative scripts in this repository
   (src/Scripts), together with theorems settling the specification claims.
   Each definition translates one Python function or loop body; comments name
   the source file and symbol it comes from. -/

namespace Netbox

/-! ### Python string primitives shared by the scripts -/

/-- Python whitespace characters (the default set stripped by str.strip and
    matched by the regex class backslash-s). -/
def isSpaceChar (c : Char) : Bool :=
  c = ' ' || c = '\t' || c = '\n' || c = '\r' || c = '\x0b' || c = '\x0c'

/-- Python str.strip with no arguments: remove leading and trailing whitespace. -/
def pyStrip (s : String) : String :=
  String.mk (((s.data.dropWhile isSpaceChar).reverse.dropWhile isSpaceChar).reverse)

/-- Python str.isdigit on the ASCII names used by these scripts: nonempty and
    all decimal digits. -/
def pyIsDigit (s : String) : Bool :=
  !s.isEmpty && s.data.all Char.isDigit

/-- Python int(s) on a string of decimal digits. -/
def pyInt (s : String) : Nat :=
  s.data.foldl (fun acc c => acc * 10 + (c.toNat - '0'.toNat)) 0

/-- Python str.upper on the ASCII names used by these scripts. -/
def pyUpper (s : String) : String := String.mk (s.data.map Char.toUpper)

/-- Python str.lower on the ASCII names used by these scripts. -/
def pyLower (s : String) : String := String.mk (s.data.map Char.toLower)

/-! ### fiber module bay - positions.py (FixModuleBayPositions) -/

/-- The letter table from FixModuleBayPositions.run: Panduit-style bay naming
    that skips the letter I. -/
def letter_order : List String :=
  ["A", "B", "C", "D", "E", "F", "G", "H", "J", "K", "L", "M", "N", "O", "P", "Q",
   "R", "S", "T", "U", "V", "W", "X", "Y", "Z"]

/-- letter_map from FixModuleBayPositions.run: each letter of letter_order
    mapped to its index plus one.  The Python dict built from the duplicate-free
    list letter_order is exactly lookup by first index. -/
def letterMap (s : String) : Option Nat :=
  (letter_order.indexOf? s).map (fun i => i + 1)

/-- The position-derivation chain of FixModuleBayPositions.run: numeric name,
    then numeric label, then letter name via letter_map, then letter label. -/
def derivePosition (rawName rawLabel : String) : Option Nat :=
  let name := pyStrip rawName
  let lab := pyStrip rawLabel
  if pyIsDigit name then some (pyInt name)
  else if pyIsDigit lab then some (pyInt lab)
  else if (letterMap (pyUpper name)).isSome then letterMap (pyUpper name)
  else if (letterMap (pyUpper lab)).isSome then letterMap (pyUpper lab)
  else none

inductive BayAction
  | skipped
  | warned
  | updated
deriving DecidableEq

structure Bay where
  name : String
  label : String
  position : Option String
deriving DecidableEq

/-- Applying a derived position: bay.position = str(derived_pos) and save,
    or a warning when no position can be derived. -/
def applyDerivation (bay : Bay) : Bay × BayAction :=
  match derivePosition bay.name bay.label with
  | none => (bay, BayAction.warned)
  | some d => ({ bay with position := some (toString d) }, BayAction.updated)

/-- One iteration of the bay loop in FixModuleBayPositions.run.  The guard
    current_pos not in (None, "") skips the bay regardless of the only_missing
    option (only_missing merely pre-filters the queryset). -/
def processBay (bay : Bay) : Bay × BayAction :=
  match bay.position with
  | some p => if p ≠ "" then (bay, BayAction.skipped) else applyDerivation bay
  | none => applyDerivation bay

/-- The alphabet ordering A..Z with I absent, built from the full alphabet as
    the spec words it, independently of the script letter table. -/
def alphabetNoI : List String :=
  (["A", "B", "C", "D", "E", "F", "G", "H", "I", "J", "K", "L", "M", "N", "O",
    "P", "Q", "R", "S", "T", "U", "V", "W", "X", "Y", "Z"]).filter (fun s => s ≠ "I")

/-- C1 counterexample: a module bay named J derives position 9 under the
    letter table that skips I, not 10 as the claim states. -/
theorem moduleBay_J_not_ten :
    derivePosition "J" "" = some 9 ∧ (some 9 : Option Nat) ≠ some 10 := by
  constructor
  · decide
  · decide

/-- C1 amended: a bay named J derives position 9; for every letter L in the
    I-less ordering A..H,J..Z the derived position is the 1-based index of L
    in that ordering; the letter I itself derives no position. -/
theorem moduleBay_letter_positions :
    derivePosition "J" "" = some 9 ∧
    (∀ L ∈ alphabetNoI, derivePosition L "" = some (alphabetNoI.indexOf L + 1)) ∧
    letterMap "I" = none ∧
    derivePosition "I" "" = none := by
  refine ⟨by decide, ?_, by decide, by decide⟩
  decide

/-- Witness for the amended C1 theorem at the concrete letter J. -/
theorem moduleBay_letter_positions_witness :
    derivePosition "J" "" = some (alphabetNoI.indexOf "J" + 1) :=
  moduleBay_letter_positions.2.1 "J" (by decide)

/-- C10: FixModuleBayPositions never overwrites an existing position: a bay
    whose position is neither null nor the empty string is skipped unchanged
    (the guard sits inside the loop body, independent of only_missing). -/
theorem moduleBay_no_overwrite (bay : Bay) (p : String)
    (hp : bay.position = some p) (hne : p ≠ "") :
    processBay bay = (bay, BayAction.skipped) := by
  simp [processBay, hp, hne]

/-- Witness for C10 at a concrete bay with position 7. -/
theorem moduleBay_no_overwrite_witness :
    processBay { name := "A", label := "", position := some "7" } =
      ({ name := "A", label := "", position := some "7" }, BayAction.skipped) :=
  moduleBay_no_overwrite _ "7" rfl (by decide)

/-! ### CBSD Patch Port rename.py: natural sort key -/

/-- One element of the Python sort key list: digit runs become ints, the other
    pieces become lowercased strings. -/
inductive KeyElem
  | str (s : String)
  | num (n : Nat)
deriving DecidableEq

/-- Python re.split with the pattern capturing digit runs: the string is cut
    into alternating non-digit and digit runs, keeping the (possibly empty)
    non-digit pieces at both ends.  Fuel is the character count, which always
    suffices because each step past the first piece consumes a nonempty digit
    run. -/
def reSplitDigitsAux : Nat → List Char → List String
  | _, [] => [""]
  | 0, cs => [String.mk cs]
  | fuel + 1, cs =>
    let pre := cs.takeWhile (fun c => !c.isDigit)
    let rest := cs.dropWhile (fun c => !c.isDigit)
    match rest with
    | [] => [String.mk pre]
    | _ =>
      let digs := rest.takeWhile Char.isDigit
      let rest2 := rest.dropWhile Char.isDigit
      String.mk pre :: String.mk digs :: reSplitDigitsAux fuel rest2

def reSplitDigits (s : String) : List String :=
  reSplitDigitsAux s.length s.data

/-- _natural_sort_key from CBSD Patch Port rename.py (for non-null names):
    split on digit runs; digit pieces become ints, the rest lowercase strings;
    the full lowercased text is the tie-breaker. -/
def natural_sort_key (text : String) : List KeyElem × String :=
  ((reSplitDigits text).map
    (fun p => if pyIsDigit p then KeyElem.num (pyInt p) else KeyElem.str (pyLower p)),
   pyLower text)

/-- Python string comparison: lexicographic by code point, a strict prefix is
    smaller. -/
def charListLt : List Char → List Char → Bool
  | _, [] => false
  | [], _ :: _ => true
  | a :: as_, b :: bs => a.toNat < b.toNat || (a.toNat == b.toNat && charListLt as_ bs)

def pyStrLt (a b : String) : Bool := charListLt a.data b.data

/-- Strict comparison of key elements.  In the keys produced by
    natural_sort_key both lists alternate str/num starting with str, so the two
    cross-type branches are never reached when comparing two such keys (Python
    would raise TypeError there). -/
def keyElemLt : KeyElem → KeyElem → Bool
  | KeyElem.str a, KeyElem.str b => pyStrLt a b
  | KeyElem.num a, KeyElem.num b => decide (a < b)
  | KeyElem.str _, KeyElem.num _ => true
  | KeyElem.num _, KeyElem.str _ => false

def keyElemEqb : KeyElem → KeyElem → Bool
  | KeyElem.str a, KeyElem.str b => a == b
  | KeyElem.num a, KeyElem.num b => a == b
  | _, _ => false

/-- Python list comparison: lexicographic, a strict prefix is smaller. -/
def keyListLt : List KeyElem → List KeyElem → Bool
  | _, [] => false
  | [], _ :: _ => true
  | a :: as_, b :: bs => keyElemLt a b || (keyElemEqb a b && keyListLt as_ bs)

def keyListEqb : List KeyElem → List KeyElem → Bool
  | [], [] => true
  | a :: as_, b :: bs => keyElemEqb a b && keyListEqb as_ bs
  | _, _ => false

/-- Python tuple comparison on the (key list, lowercased text) pair. -/
def natKeyLt (a b : List KeyElem × String) : Bool :=
  keyListLt a.1 b.1 || (keyListEqb a.1 b.1 && pyStrLt a.2 b.2)

/-! ### CBSD Patch Port rename.py: front and rear port passes -/

/-- A FrontPort or RearPort record.  The id field stands for the database
    identity and is never touched by the rename. -/
structure PPort where
  id : Nat
  name : String
  label : String
deriving DecidableEq

def defaultPort : PPort := { id := 0, name := "", label := "" }

/-- Stable insertion used to model Python list.sort (stable): the new element
    a (earlier in the original list) is placed before every element whose key
    is not strictly smaller. -/
def insertSorted (lt : PPort → PPort → Bool) (a : PPort) : List PPort → List PPort
  | [] => [a]
  | b :: bs => if lt b a then b :: insertSorted lt a bs else a :: b :: bs

/-- ports.sort with key _natural_sort_key on the port name (stable). -/
def sortPorts (ps : List PPort) : List PPort :=
  ps.foldr (insertSorted (fun x y => natKeyLt (natural_sort_key x.name) (natural_sort_key y.name))) []

/-- Python format idx:02d for the 1-based indices used here. -/
def fmt02 (n : Nat) : String :=
  if n < 10 then "0" ++ toString n else toString n

/-- The front-port name template of RenamePatchPanelPortsCBSD.run. -/
def frontName (idf panel : String) (idx : Nat) : String :=
  idf ++ "-" ++ panel ++ "-" ++ fmt02 idx

/-- The rear-port name template of RenamePatchPanelPortsCBSD.run. -/
def rearName (idf panel : String) (idx : Nat) : String :=
  idf ++ "-" ++ panel ++ "-" ++ fmt02 idx ++ "-R"

/-- The front-port loop of RenamePatchPanelPortsCBSD.run on the sorted list,
    enumerating from start index k (the script starts at 1).  Returns the
    updated ports and the number of _validated_save calls. -/
def frontPass (idf panel : String) : Nat → List PPort → List PPort × Nat
  | _, [] => ([], 0)
  | k, p :: ps =>
    let newName := frontName idf panel k
    let needs := !(p.name == newName) || !(p.label == newName)
    let p2 : PPort := { p with name := newName, label := newName }
    let (rest, n) := frontPass idf panel (k + 1) ps
    (p2 :: rest, (if needs then 1 else 0) + n)

/-- The rear-port loop of RenamePatchPanelPortsCBSD.run on the sorted list.
    needs_change is (name differs) or (clear_rear_label and label truthy);
    the label is cleared only when clear_rear_label is set. -/
def rearPass (idf panel : String) (clear : Bool) : Nat → List PPort → List PPort × Nat
  | _, [] => ([], 0)
  | k, p :: ps =>
    let newName := rearName idf panel k
    let needs := !(p.name == newName) || (clear && !(p.label == ""))
    let p2 : PPort := { p with name := newName, label := if clear then "" else p.label }
    let (rest, n) := rearPass idf panel clear (k + 1) ps
    (p2 :: rest, (if needs then 1 else 0) + n)

/-- FRONT PORTS section of RenamePatchPanelPortsCBSD.run for one device:
    sort naturally, then rename with 1-based two-digit indices. -/
def processFrontPorts (idf panel : String) (ports : List PPort) : List PPort × Nat :=
  frontPass idf panel 1 (sortPorts ports)

/-- REAR PORTS section of RenamePatchPanelPortsCBSD.run for one device. -/
def processRearPorts (idf panel : String) (clear : Bool) (ports : List PPort) : List PPort × Nat :=
  rearPass idf panel clear 1 (sortPorts ports)

/-! Helper lemmas about the passes. -/

theorem frontPass_names (idf panel : String) :
    ∀ (k : Nat) (ps : List PPort),
      (frontPass idf panel k ps).1.map PPort.name =
        (List.range ps.length).map (fun i => frontName idf panel (k + i)) := by
  intro k ps
  induction ps generalizing k with
  | nil => simp [frontPass]
  | cons p ps ih =>
    simp only [frontPass, List.map_cons, List.length_cons, List.range_succ_eq_map,
      List.map_map]
    congr 1
    rw [ih (k + 1)]
    apply List.map_congr_left
    intro i _
    simp only [Function.comp_apply]
    congr 1
    omega

theorem frontPass_labels (idf panel : String) :
    ∀ (k : Nat) (ps : List PPort),
      (frontPass idf panel k ps).1.map PPort.label =
        (List.range ps.length).map (fun i => frontName idf panel (k + i)) := by
  intro k ps
  induction ps generalizing k with
  | nil => simp [frontPass]
  | cons p ps ih =>
    simp only [frontPass, List.map_cons, List.length_cons, List.range_succ_eq_map,
      List.map_map]
    congr 1
    rw [ih (k + 1)]
    apply List.map_congr_left
    intro i _
    simp only [Function.comp_apply]
    congr 1
    omega

theorem rearPass_names (idf panel : String) (clear : Bool) :
    ∀ (k : Nat) (ps : List PPort),
      (rearPass idf panel clear k ps).1.map PPort.name =
        (List.range ps.length).map (fun i => rearName idf panel (k + i)) := by
  intro k ps
  induction ps generalizing k with
  | nil => simp [rearPass]
  | cons p ps ih =>
    simp only [rearPass, List.map_cons, List.length_cons, List.range_succ_eq_map,
      List.map_map]
    congr 1
    rw [ih (k + 1)]
    apply List.map_congr_left
    intro i _
    simp only [Function.comp_apply]
    congr 1
    omega

theorem rearPass_labels_cleared (idf panel : String) :
    ∀ (k : Nat) (ps : List PPort),
      ((rearPass idf panel true k ps).1.all (fun p => p.label == "")) = true := by
  intro k ps
  induction ps generalizing k with
  | nil => simp [rearPass]
  | cons p ps ih =>
    simp only [rearPass, List.all_cons, Bool.and_eq_true]
    exact ⟨by simp, ih (k + 1)⟩

theorem frontPass_zero_saves (idf panel : String) :
    ∀ (k : Nat) (ps : List PPort),
      (∀ i, i < ps.length →
        (ps.getD i defaultPort).name = frontName idf panel (k + i) ∧
        (ps.getD i defaultPort).label = frontName idf panel (k + i)) →
      (frontPass idf panel k ps).2 = 0 := by
  intro k ps
  induction ps generalizing k with
  | nil => intro _; simp [frontPass]
  | cons p ps ih =>
    intro h
    have h0 := h 0 (by simp)
    simp only [List.getD_cons_zero, Nat.add_zero] at h0
    have htail : ∀ i, i < ps.length →
        (ps.getD i defaultPort).name = frontName idf panel ((k + 1) + i) ∧
        (ps.getD i defaultPort).label = frontName idf panel ((k + 1) + i) := by
      intro i hi
      have := h (i + 1) (by simpa using Nat.succ_lt_succ hi)
      simp only [List.getD_cons_succ] at this
      constructor
      · rw [this.1]; congr 1; omega
      · rw [this.2]; congr 1; omega
    simp only [frontPass]
    rw [ih (k + 1) htail]
    simp [h0.1, h0.2]

theorem rearPass_zero_saves (idf panel : String) (clear : Bool) :
    ∀ (k : Nat) (ps : List PPort),
      (∀ i, i < ps.length →
        (ps.getD i defaultPort).name = rearName idf panel (k + i) ∧
        (clear = true → (ps.getD i defaultPort).label = "")) →
      (rearPass idf panel clear k ps).2 = 0 := by
  intro k ps
  induction ps generalizing k with
  | nil => intro _; simp [rearPass]
  | cons p ps ih =>
    intro h
    have h0 := h 0 (by simp)
    simp only [List.getD_cons_zero, Nat.add_zero] at h0
    have htail : ∀ i, i < ps.length →
        (ps.getD i defaultPort).name = rearName idf panel ((k + 1) + i) ∧
        (clear = true → (ps.getD i defaultPort).label = "") := by
      intro i hi
      have := h (i + 1) (by simpa using Nat.succ_lt_succ hi)
      simp only [List.getD_cons_succ] at this
      constructor
      · rw [this.1]; congr 1; omega
      · exact this.2
    simp only [rearPass]
    rw [ih (k + 1) htail]
    cases clear with
    | false => simp [h0.1]
    | true => simp [h0.1, h0.2 rfl]

/-- C2: a second run of the CBSD rename with unchanged inputs issues zero
    saves: when every front port (in natural order) already carries its target
    name as both name and label, and every rear port already carries its
    R-suffixed target name with (when clear_rear_label) an empty label,
    needs_change is false everywhere and _validated_save is never invoked. -/
theorem cbsd_second_run_zero_saves (idf panel : String) (clear : Bool)
    (fs rs : List PPort)
    (hf : ∀ i, i < (sortPorts fs).length →
      ((sortPorts fs).getD i defaultPort).name = frontName idf panel (i + 1) ∧
      ((sortPorts fs).getD i defaultPort).label = frontName idf panel (i + 1))
    (hr : ∀ i, i < (sortPorts rs).length →
      ((sortPorts rs).getD i defaultPort).name = rearName idf panel (i + 1) ∧
      (clear = true → ((sortPorts rs).getD i defaultPort).label = "")) :
    (processFrontPorts idf panel fs).2 = 0 ∧
    (processRearPorts idf panel clear rs).2 = 0 := by
  constructor
  · apply frontPass_zero_saves
    intro i hi
    have := hf i hi
    constructor
    · rw [this.1]; congr 1; omega
    · rw [this.2]; congr 1; omega
  · apply rearPass_zero_saves
    intro i hi
    have := hr i hi
    constructor
    · rw [this.1]; congr 1; omega
    · exact this.2

/-- Witness for C2 on a one-port panel that is already correctly named. -/
theorem cbsd_second_run_zero_saves_witness :
    (processFrontPorts "A" "P" [{ id := 3, name := "A-P-01", label := "A-P-01" }]).2 = 0 ∧
    (processRearPorts "A" "P" true [{ id := 4, name := "A-P-01-R", label := "" }]).2 = 0 :=
  cbsd_second_run_zero_saves "A" "P" true _ _ (by decide) (by decide)

theorem insertSorted_length (lt : PPort → PPort → Bool) (a : PPort) :
    ∀ l : List PPort, (insertSorted lt a l).length = l.length + 1 := by
  intro l
  induction l with
  | nil => rfl
  | cons b bs ih =>
    simp only [insertSorted]
    split
    · simp [ih]
    · simp

theorem sortPorts_length (ps : List PPort) : (sortPorts ps).length = ps.length := by
  induction ps with
  | nil => rfl
  | cons p ps ih =>
    simp only [sortPorts, List.foldr_cons] at *
    rw [insertSorted_length, ih]
    simp

/-- C4: the CBSD rename first orders the front ports naturally and then gives
    the i-th port (1-based) the name and label idf-panel-i with the index
    zero-padded to two digits.  Concretely, ports named 2, 10, 1 become
    A-PP-01-01 for the port that was 1, then 02 for 2 and 03 for 10. -/
theorem cbsd_front_rename :
    (∀ (idf panel : String) (ports : List PPort),
      (processFrontPorts idf panel ports).1.map PPort.name =
        (List.range ports.length).map (fun i => frontName idf panel (i + 1)) ∧
      (processFrontPorts idf panel ports).1.map PPort.label =
        (List.range ports.length).map (fun i => frontName idf panel (i + 1))) ∧
    processFrontPorts "A" "PP-01"
      [{ id := 0, name := "2", label := "2" }, { id := 1, name := "10", label := "10" },
       { id := 2, name := "1", label := "1" }] =
      ([{ id := 2, name := "A-PP-01-01", label := "A-PP-01-01" },
        { id := 0, name := "A-PP-01-02", label := "A-PP-01-02" },
        { id := 1, name := "A-PP-01-03", label := "A-PP-01-03" }], 3) := by
  constructor
  · intro idf panel ports
    constructor
    · rw [processFrontPorts, frontPass_names, sortPorts_length]
      apply List.map_congr_left
      intro i _
      congr 1
      omega
    · rw [processFrontPorts, frontPass_labels, sortPorts_length]
      apply List.map_congr_left
      intro i _
      congr 1
      omega
  · decide

/-! ### CBSD Patch Port rename.py: _extract_patch_panel_id -/

/-- Python regex word characters, on the ASCII device names in scope. -/
def isWordChar (c : Char) : Bool := c.isAlphanum || c == '_'

/-- Case-insensitive match of a literal lowercase pattern at the head of the
    input; returns the remaining characters on success. -/
def matchCI : List Char → List Char → Option (List Char)
  | [], cs => some cs
  | _ :: _, [] => none
  | p :: ps, c :: cs => if c.toLower == p then matchCI ps cs else none

/-- The phrase part of the regex in _extract_patch_panel_id, tried at one
    position: word boundary, patch (case-insensitive), one or more whitespace,
    panel (case-insensitive), word boundary.  prev is the character before the
    position (none at the start).  Returns the characters after the phrase. -/
def matchPhraseAt (prev : Option Char) (cs : List Char) : Option (List Char) :=
  let boundaryOk := match prev with
    | none => true
    | some c => !isWordChar c
  if !boundaryOk then none
  else match matchCI "patch".data cs with
    | none => none
    | some afterPatch =>
      let sp := afterPatch.takeWhile isSpaceChar
      let afterSp := afterPatch.dropWhile isSpaceChar
      if sp.isEmpty then none
      else match matchCI "panel".data afterSp with
        | none => none
        | some rest =>
          match rest with
          | [] => some []
          | c :: _ => if isWordChar c then none else some rest

/-- Leftmost search for the phrase, as re.search does: try each position in
    turn, remembering the previous character for the word-boundary test. -/
def searchPhrase : Option Char → List Char → Option (List Char)
  | prev, [] => matchPhraseAt prev []
  | prev, c :: cs =>
    match matchPhraseAt prev (c :: cs) with
    | some rest => some rest
    | none => searchPhrase (some c) cs

/-- Python str.split with no arguments: whitespace runs separate tokens and
    produce no empty tokens. -/
def pySplitWsAux : List Char → List Char → List String
  | cur, [] => if cur.isEmpty then [] else [String.mk cur.reverse]
  | cur, c :: cs =>
    if isSpaceChar c then
      if cur.isEmpty then pySplitWsAux [] cs
      else String.mk cur.reverse :: pySplitWsAux [] cs
    else pySplitWsAux (c :: cur) cs

def pySplitWs (s : String) : List String := pySplitWsAux [] s.data

/-- _extract_patch_panel_id from CBSD Patch Port rename.py: find the phrase
    case-insensitively and return the first whitespace-separated token of the
    stripped remainder.  The regex tail group followed by strip amounts to
    stripping everything after the phrase (device names carry no newline, so
    the dot and dollar of the group behave as any-char and end-of-string). -/
def extract_patch_panel_id (deviceName : String) : Option String :=
  if deviceName == "" then none
  else
    match searchPhrase none deviceName.data with
    | none => none
    | some rest =>
      let tail := pyStrip (String.mk rest)
      if tail == "" then none
      else
        match pySplitWs tail with
        | [] => none
        | t :: _ => if t == "" then none else some t

/-- C5: the two concrete examples of the spec hold, and extraction returns
    none when the phrase is absent and when nothing (or only whitespace)
    follows the phrase. -/
theorem extract_panel_id_spec :
    extract_patch_panel_id "IDF-A Patch Panel PP-01 Left" = some "PP-01" ∧
    extract_patch_panel_id "Patch Panel 3" = some "3" ∧
    (∀ s, searchPhrase none s.data = none → extract_patch_panel_id s = none) ∧
    (∀ s rest, searchPhrase none s.data = some rest →
      pyStrip (String.mk rest) = "" → extract_patch_panel_id s = none) := by
  refine ⟨by decide, by decide, ?_, ?_⟩
  · intro s h
    simp only [extract_patch_panel_id]
    split
    · rfl
    · rw [h]
  · intro s rest h hstrip
    simp only [extract_patch_panel_id]
    split
    · rfl
    · rw [h]
      simp [hstrip]

/-- Witness for C5: a name without the phrase yields none, and a name where
    only whitespace follows the phrase yields none. -/
theorem extract_panel_id_spec_witness :
    extract_patch_panel_id "IDF-A cabinet" = none ∧
    extract_patch_panel_id "Patch Panel " = none := by
  constructor
  · exact extract_panel_id_spec.2.2.1 "IDF-A cabinet" (by decide)
  · exact extract_panel_id_spec.2.2.2 "Patch Panel " " ".data (by decide) (by decide)

/-! ### relabel_frontports_suffix.py (LabelPorts) -/

/-- A FrontPort record in the LabelPorts script; rearPortName holds the name
    of the associated RearPort when one exists. -/
structure LPFront where
  name : String
  label : String
  descr : String
  rearPortName : Option String
deriving DecidableEq

structure LPDevice where
  name : String
  fronts : List LPFront
deriving DecidableEq

/-- The rear-port part of the LabelPorts row body: rename the associated rear
    port to the new front name with -R appended when it differs; the save may
    raise, in which case the failure is logged and the loop continues. -/
def lpRearStep (canSave : String → Bool) (fp : LPFront) (newName : String) :
    LPFront × List String :=
  match fp.rearPortName with
  | none => (fp, [])
  | some rn =>
    let rearNm := newName ++ "-R"
    if rn ≠ rearNm then
      if canSave rearNm then ({ fp with rearPortName := some rearNm }, [rearNm])
      else (fp, [])
    else (fp, [])

/-- The front-port part of the LabelPorts row body: set name, label and
    description, save only when something changed; a failing save is caught,
    leaves the stored record unchanged and skips the rear port of that row. -/
def lpRowBody (canSave : String → Bool) (fp : LPFront) (newName newDesc : String) :
    LPFront × List String :=
  let changed := !(fp.name == newName) || !(fp.label == newName) || !(fp.descr == newDesc)
  if changed then
    if canSave newName then
      let fp2 : LPFront := { fp with name := newName, label := newName, descr := newDesc }
      let (fp3, ws) := lpRearStep canSave fp2 newName
      (fp3, newName :: ws)
    else (fp, [])
  else
    let (fp3, ws) := lpRearStep canSave fp newName
    (fp3, ws)

def findDevice (devs : List LPDevice) (nm : String) : Option LPDevice :=
  devs.find? (fun d => d.name == nm)

def replaceFront : List LPFront → String → LPFront → List LPFront
  | [], _, _ => []
  | f :: fs, old, fp2 => if f.name == old then fp2 :: fs else f :: replaceFront fs old fp2

def updateDevice (devs : List LPDevice) (devName oldFp : String) (fp2 : LPFront) :
    List LPDevice :=
  devs.map (fun d =>
    if d.name == devName then { d with fronts := replaceFront d.fronts oldFp fp2 } else d)

/-- One iteration of the row loop of LabelPorts.run, including the blank-line,
    short-row and header checks; lookup failures are logged and the row is
    skipped. -/
def lpStepRow (canSave : String → Bool) (devs : List LPDevice) (row : List String) :
    List LPDevice × List String :=
  if row.isEmpty || row.all (fun cell => pyStrip cell == "") then (devs, [])
  else if row.length < 4 || pyLower (pyStrip (row.headD "")) == "devicename" then (devs, [])
  else
    let deviceName := pyStrip (row.getD 0 "")
    let frontPortName := pyStrip (row.getD 1 "")
    let newName := pyStrip (row.getD 2 "")
    let newDesc := pyStrip (row.getD 3 "")
    match findDevice devs deviceName with
    | none => (devs, [])
    | some dev =>
      match dev.fronts.find? (fun f => f.name == frontPortName) with
      | none => (devs, [])
      | some fp =>
        let (fp2, ws) := lpRowBody canSave fp newName newDesc
        (updateDevice devs deviceName fp.name fp2, ws)

/-- The row loop of LabelPorts.run: rows are processed in order and every row
    is reached whatever happened on the previous ones. -/
def labelPortsRun (canSave : String → Bool) :
    List LPDevice → List (List String) → List LPDevice × List String
  | devs, [] => (devs, [])
  | devs, row :: rows =>
    let step := lpStepRow canSave devs row
    let rest := labelPortsRun canSave step.1 rows
    (rest.1, step.2 ++ rest.2)

/-- C8: rear-port names follow the R-suffixed template: the CBSD rename gives
    the i-th rear port in natural order the front-name template with -R
    appended (clearing labels when clear_rear_label), and the LabelPorts row
    body renames the associated rear port to the new front name with -R
    appended. -/
theorem rear_port_templates :
    (∀ (idf panel : String) (i : Nat), rearName idf panel i = frontName idf panel i ++ "-R") ∧
    (∀ (idf panel : String) (clear : Bool) (ports : List PPort),
      (processRearPorts idf panel clear ports).1.map PPort.name =
        (List.range ports.length).map (fun i => rearName idf panel (i + 1))) ∧
    (∀ (idf panel : String) (ports : List PPort),
      ((processRearPorts idf panel true ports).1.all (fun p => p.label == "")) = true) ∧
    (∀ (canSave : String → Bool) (fp : LPFront) (newName newDesc rn : String),
      fp.rearPortName = some rn →
      canSave newName = true →
      canSave (newName ++ "-R") = true →
      ((lpRowBody canSave fp newName newDesc).1).rearPortName = some (newName ++ "-R")) := by
  refine ⟨fun _ _ _ => rfl, ?_, ?_, ?_⟩
  · intro idf panel clear ports
    rw [processRearPorts, rearPass_names, sortPorts_length]
    apply List.map_congr_left
    intro i _
    congr 1
    omega
  · intro idf panel ports
    exact rearPass_labels_cleared idf panel 1 (sortPorts ports)
  · intro canSave fp newName newDesc rn hrn hsaveF hsaveR
    simp only [lpRowBody, lpRearStep, hrn, hsaveF, hsaveR, if_true]
    split
    · split
      · rfl
      · next hne =>
        simp only [ne_eq, not_not] at hne
        simp [hne]
    · split
      · rfl
      · next hne =>
        simp only [ne_eq, not_not] at hne
        rw [hrn, hne]

/-- Witness for C8 on a concrete front port with an out-of-date rear port. -/
theorem rear_port_templates_witness :
    ((lpRowBody (fun _ => true)
        { name := "P1", label := "", descr := "", rearPortName := some "old" }
        "N" "d").1).rearPortName = some ("N" ++ "-R") :=
  rear_port_templates.2.2.2 (fun _ => true)
    { name := "P1", label := "", descr := "", rearPortName := some "old" }
    "N" "d" "old" rfl rfl rfl

/-! ### Manager Permissions.py (ManagerPackGenerator) -/

structure ObjectPermissionRec where
  name : String
  enabled : Bool
  actions : List String
  constraints : List (String × String)
  groups : List String
  object_types : List String
deriving DecidableEq

structure SavedFilterRec where
  slug : String
  name : String
  enabled : Bool
  shared : Bool
  parameters : List (String × String)
  object_types : List String
deriving DecidableEq

/-- _ensure_permission from Manager Permissions.py: get_or_create on the name
    (one insert when absent), then the fields are set and perm.save() is
    called with no comparison against the current record, then groups and
    object_types are re-applied.  The result pairs the stored record with the
    number of save calls (the create insert counts as one). -/
def ensurePermission (existing : Option ObjectPermissionRec) (permName : String)
    (group : String) (object_types : List String) (actions : List String)
    (constraints : List (String × String)) : ObjectPermissionRec × Nat :=
  let createSaves : Nat := match existing with | some _ => 0 | none => 1
  let perm : ObjectPermissionRec := match existing with
    | some p => p
    | none => { name := permName, enabled := true, actions := actions,
                constraints := constraints, groups := [], object_types := [] }
  let perm := { perm with enabled := true, actions := actions, constraints := constraints }
  let perm := { perm with groups := [group], object_types := object_types }
  (perm, createSaves + 1)

/-- _ensure_saved_filter from Manager Permissions.py: get_or_create on the
    slug, then the fields are set and sf.save() is called with no comparison,
    then object_types re-applied.  The name and slug templates (the My-label
    string and the slugified form) are computed by the caller from the label;
    they enter here as arguments. -/
def ensureSavedFilter (existing : Option SavedFilterRec) (sfName sfSlug tagSlug : String)
    (ctDevice : String) (shared : Bool) : SavedFilterRec × Nat :=
  let createSaves : Nat := match existing with | some _ => 0 | none => 1
  let sf : SavedFilterRec := match existing with
    | some s => s
    | none => { slug := sfSlug, name := sfName, enabled := true, shared := shared,
                parameters := [("tag", tagSlug)], object_types := [] }
  let sf := { sf with
                name := sfName, enabled := true, shared := shared,
                parameters := [("tag", tagSlug)] }
  let sf := { sf with object_types := [ctDevice] }
  (sf, createSaves + 1)

/-- C3 counterexample: an ObjectPermission whose fields already equal the
    desired values still receives one save from _ensure_permission, so the
    claim that no save is performed in that case is false. -/
theorem ensure_permission_saves_anyway :
    (ensurePermission
      (some { name := "Cameras - Devices", enabled := true,
              actions := ["view", "change"],
              constraints := [("tags__slug", "device-type-cameras")],
              groups := ["Manager - Cameras"], object_types := ["dcim.device"] })
      "Cameras - Devices" "Manager - Cameras" ["dcim.device"] ["view", "change"]
      [("tags__slug", "device-type-cameras")]).2 = 1 ∧ (1 : Nat) ≠ 0 := by
  constructor
  · rfl
  · decide

/-- C3 amended: the ensure steps of ManagerPackGenerator compute the desired
    state and re-apply the relation sets on every run, and the resulting
    record always equals the desired state, but _ensure_permission and
    _ensure_saved_filter do not compare before writing: an existing record
    receives exactly one save even when its fields already equal the desired
    values.  The CBSD port rename, by contrast, saves only on difference. -/
theorem ensure_semantics_amended :
    (∀ (existing : Option ObjectPermissionRec) (permName group : String)
       (ots acts : List String) (cons : List (String × String)),
      (ensurePermission existing permName group ots acts cons).1.enabled = true ∧
      (ensurePermission existing permName group ots acts cons).1.actions = acts ∧
      (ensurePermission existing permName group ots acts cons).1.constraints = cons ∧
      (ensurePermission existing permName group ots acts cons).1.groups = [group] ∧
      (ensurePermission existing permName group ots acts cons).1.object_types = ots ∧
      (∀ p, existing = some p → (ensurePermission existing permName group ots acts cons).2 = 1)) ∧
    (∀ (existing : Option SavedFilterRec) (sfName sfSlug tagSlug ct : String) (shared : Bool),
      (ensureSavedFilter existing sfName sfSlug tagSlug ct shared).1.name = sfName ∧
      (ensureSavedFilter existing sfName sfSlug tagSlug ct shared).1.enabled = true ∧
      (ensureSavedFilter existing sfName sfSlug tagSlug ct shared).1.shared = shared ∧
      (ensureSavedFilter existing sfName sfSlug tagSlug ct shared).1.parameters = [("tag", tagSlug)] ∧
      (ensureSavedFilter existing sfName sfSlug tagSlug ct shared).1.object_types = [ct] ∧
      (∀ s, existing = some s → (ensureSavedFilter existing sfName sfSlug tagSlug ct shared).2 = 1)) ∧
    (∀ (idf panel : String) (k : Nat) (p : PPort),
      p.name = frontName idf panel k → p.label = frontName idf panel k →
      (frontPass idf panel k [p]).2 = 0) := by
  refine ⟨?_, ?_, ?_⟩
  · intro existing permName group ots acts cons
    cases existing <;> simp [ensurePermission]
  · intro existing sfName sfSlug tagSlug ct shared
    cases existing <;> simp [ensureSavedFilter]
  · intro idf panel k p h1 h2
    simp [frontPass, h1, h2]

/-- Witness for the amended C3 theorem: a record that already equals the
    desired state still counts one save. -/
theorem ensure_semantics_amended_witness :
    (ensurePermission
      (some { name := "Cameras - Devices", enabled := true,
              actions := ["view"], constraints := [],
              groups := ["Manager - Cameras"], object_types := ["dcim.device"] })
      "Cameras - Devices" "Manager - Cameras" ["dcim.device"] ["view"] []).2 = 1 :=
  (ensure_semantics_amended.1
    (some { name := "Cameras - Devices", enabled := true,
            actions := ["view"], constraints := [],
            groups := ["Manager - Cameras"], object_types := ["dcim.device"] })
    "Cameras - Devices" "Manager - Cameras" ["dcim.device"] ["view"] []).2.2.2.2.2
    _ rfl

/-! ### create_vm 2.1.py: IPv4 allocation -/

/-- Dotted-quad rendering of a 32-bit address value, as str() of a netaddr
    IPAddress produces it. -/
def ipStr (n : Nat) : String :=
  toString (n / 16777216 % 256) ++ "." ++ toString (n / 65536 % 256) ++ "." ++
    toString (n / 256 % 256) ++ "." ++ toString (n % 256)

/-- The candidate string of allocate_next_ipv4_from_range: address slash mask. -/
def candStr (n mask : Nat) : String := ipStr n ++ "/" ++ toString mask

/-- A NetBox Prefix as allocate_next_ipv4_from_pfx consumes it: vrf, the
    available-IP iterator produced by the library call get_available_ips
    (library code outside this repository), the prefix length, and the
    optional VLAN. -/
structure PfxRec where
  vrf : Option Nat
  availIps : List Nat
  plen : Nat
  vlan : Option Nat
deriving DecidableEq

/-- A NetBox IPRange with its endpoints already normalized the way
    _extract_ip_and_mask does: start address value, the start prefix length,
    and end address value. -/
structure RngRec where
  vrf : Option Nat
  startIp : Nat
  startPlen : Nat
  endIp : Nat
  vlan : Option Nat
deriving DecidableEq

/-- The exists() test in the range loop: some IPAddress record has this
    address string and the selected VRF. -/
def ipTaken (existing : List (String × Option Nat)) (vrf : Option Nat)
    (candidate : String) : Bool :=
  existing.any (fun e => e.1 == candidate && e.2 == vrf)

/-- The prefix-allocation helper of create_vm 2.1.py (source name ends in the
    word prefix; shortened here): the first element of the available-IP
    iterator with the prefix length appended, or the RuntimeError message when
    the iterator is empty. -/
def allocate_next_ipv4_from_pfx (p : PfxRec) : Except String String :=
  match p.availIps with
  | [] => Except.error "No available IPv4 addresses remain in prefix"
  | ip :: _ => Except.ok (ipStr ip ++ "/" ++ toString p.plen)

/-- The while loop of allocate_next_ipv4_from_range: scan upward from ip while
    it does not exceed endIp, returning the first candidate not taken. -/
def allocRangeLoop (taken : String → Bool) (mask endIp ip : Nat) : Except String String :=
  if _h : ip ≤ endIp then
    if taken (candStr ip mask) then allocRangeLoop taken mask endIp (ip + 1)
    else Except.ok (candStr ip mask)
  else Except.error "No available IPv4 addresses remain in range"
termination_by endIp + 1 - ip

/-- allocate_next_ipv4_from_range from create_vm 2.1.py: candidates carry the
    start-address prefix length, existence is checked against the selected
    VRF. -/
def allocate_next_ipv4_from_range (existing : List (String × Option Nat))
    (selectedVrf : Option Nat) (rng : RngRec) : Except String String :=
  allocRangeLoop (ipTaken existing selectedVrf) rng.startPlen rng.endIp rng.startIp

theorem allocRangeLoop_all_taken (taken : String → Bool) (mask endIp : Nat) :
    ∀ ip, (∀ n, ip ≤ n → n ≤ endIp → taken (candStr n mask) = true) →
      allocRangeLoop taken mask endIp ip =
        Except.error "No available IPv4 addresses remain in range" := by
  have H : ∀ k ip, endIp + 1 - ip ≤ k →
      (∀ n, ip ≤ n → n ≤ endIp → taken (candStr n mask) = true) →
      allocRangeLoop taken mask endIp ip =
        Except.error "No available IPv4 addresses remain in range" := by
    intro k
    induction k with
    | zero =>
      intro ip hk hall
      rw [allocRangeLoop]
      have hgt : ¬ ip ≤ endIp := by omega
      simp [hgt]
    | succ k ih =>
      intro ip hk hall
      rw [allocRangeLoop]
      by_cases hle : ip ≤ endIp
      · rw [dif_pos hle, hall ip le_rfl hle]
        simp only [if_true]
        exact ih (ip + 1) (by omega) fun n h1 h2 => hall n (by omega) h2
      · simp [hle]
  intro ip hall
  exact H (endIp + 1 - ip) ip le_rfl hall

theorem allocRangeLoop_finds_least (taken : String → Bool) (mask endIp : Nat) :
    ∀ ip n, ip ≤ n → n ≤ endIp → taken (candStr n mask) = false →
      (∀ m, ip ≤ m → m < n → taken (candStr m mask) = true) →
      allocRangeLoop taken mask endIp ip = Except.ok (candStr n mask) := by
  have H : ∀ k ip n, endIp + 1 - ip ≤ k → ip ≤ n → n ≤ endIp →
      taken (candStr n mask) = false →
      (∀ m, ip ≤ m → m < n → taken (candStr m mask) = true) →
      allocRangeLoop taken mask endIp ip = Except.ok (candStr n mask) := by
    intro k
    induction k with
    | zero =>
      intro ip n hk h1 h2 h3 hmin
      omega
    | succ k ih =>
      intro ip n hk h1 h2 h3 hmin
      rw [allocRangeLoop]
      have hle : ip ≤ endIp := by omega
      rw [dif_pos hle]
      by_cases heq : ip = n
      · subst heq
        rw [h3]
        simp
      · have hlt : ip < n := by omega
        rw [hmin ip le_rfl hlt]
        simp only [if_true]
        exact ih (ip + 1) n (by omega) (by omega) h2 h3
          fun m hm1 hm2 => hmin m (by omega) hm2
  intro ip n h1 h2 h3 hmin
  exact H (endIp + 1 - ip) ip n le_rfl h1 h2 h3 hmin

/-- C6: prefix allocation returns the first element of the available-IP
    iterator (RuntimeError when it is empty), and range allocation is a linear
    scan returning the numerically smallest address between the range start
    and end for which no IPAddress record with that address and the selected
    VRF exists, formatted with the start prefix length (RuntimeError when
    every address is taken). -/
theorem ipv4_allocation_spec :
    (∀ p : PfxRec, p.availIps = [] →
      allocate_next_ipv4_from_pfx p =
        Except.error "No available IPv4 addresses remain in prefix") ∧
    (∀ (p : PfxRec) (ip : Nat) (rest : List Nat), p.availIps = ip :: rest →
      allocate_next_ipv4_from_pfx p = Except.ok (ipStr ip ++ "/" ++ toString p.plen)) ∧
    (∀ (existing : List (String × Option Nat)) (vrf : Option Nat) (rng : RngRec),
      (∀ n, rng.startIp ≤ n → n ≤ rng.endIp →
        ipTaken existing vrf (candStr n rng.startPlen) = true) →
      allocate_next_ipv4_from_range existing vrf rng =
        Except.error "No available IPv4 addresses remain in range") ∧
    (∀ (existing : List (String × Option Nat)) (vrf : Option Nat) (rng : RngRec) (n : Nat),
      rng.startIp ≤ n → n ≤ rng.endIp →
      ipTaken existing vrf (candStr n rng.startPlen) = false →
      (∀ m, rng.startIp ≤ m → m < n →
        ipTaken existing vrf (candStr m rng.startPlen) = true) →
      allocate_next_ipv4_from_range existing vrf rng =
        Except.ok (candStr n rng.startPlen)) := by
  refine ⟨?_, ?_, ?_, ?_⟩
  · intro p hp
    simp [allocate_next_ipv4_from_pfx, hp]
  · intro p ip rest hp
    simp [allocate_next_ipv4_from_pfx, hp]
  · intro existing vrf rng hall
    exact allocRangeLoop_all_taken _ _ _ _ hall
  · intro existing vrf rng n h1 h2 h3 hmin
    exact allocRangeLoop_finds_least _ _ _ _ n h1 h2 h3 hmin

/-- Witness for C6: in the range 0.0.0.1 to 0.0.0.3 with the first two
    addresses taken, the third is allocated; a prefix with available iterator
    starting at 5 allocates 0.0.0.5/24. -/
theorem ipv4_allocation_spec_witness :
    allocate_next_ipv4_from_range [("0.0.0.1/24", none), ("0.0.0.2/24", none)] none
      { vrf := none, startIp := 1, startPlen := 24, endIp := 3, vlan := none } =
      Except.ok (candStr 3 24) ∧
    allocate_next_ipv4_from_pfx
      { vrf := none, availIps := [5, 6], plen := 24, vlan := none } =
      Except.ok (ipStr 5 ++ "/" ++ toString (24 : Nat)) := by
  constructor
  · exact ipv4_allocation_spec.2.2.2 [("0.0.0.1/24", none), ("0.0.0.2/24", none)] none
      { vrf := none, startIp := 1, startPlen := 24, endIp := 3, vlan := none } 3
      (by decide) (by decide) (by decide)
      (by intro m h1 h2; interval_cases m <;> decide)
  · exact ipv4_allocation_spec.2.1
      { vrf := none, availIps := [5, 6], plen := 24, vlan := none } 5 [6] rfl

/-! ### create_vm 2.1.py: NewVM.run -/

inductive AllocSrc
  | fromPfx
  | fromRange
deriving DecidableEq

/-- The resolved form fields of NewVM.run.  Optional strings arrive as the
    empty string (Python falsiness), optional integers as none. -/
structure VMData where
  vm_name : String
  dns_name : String
  domain_name : String
  vrf : Option Nat
  allocation_source : AllocSrc
  ipv4Pfx : Option PfxRec
  ipv4Rng : Option RngRec
  interface_name : String
  interface_vlan : Option Nat
  extra_nics : Nat
  nic2_name : String
  nic2_vlan : Option Nat
  nic3_name : String
  nic3_vlan : Option Nat
  disk1_name : String
  disk1_size : Option Nat
  disk2_name : String
  disk2_size : Option Nat
  disk3_name : String
  disk3_size : Option Nat
  disk4_name : String
  disk4_size : Option Nat
deriving DecidableEq

/-- The VRF consistency checks of NewVM.run: the allocation object must sit in
    the selected VRF. -/
def vrfMismatch (d : VMData) : Bool :=
  match d.allocation_source, d.ipv4Pfx, d.ipv4Rng with
  | AllocSrc.fromPfx, some p, _ => p.vrf != d.vrf
  | AllocSrc.fromRange, _, some r => r.vrf != d.vrf
  | _, _, _ => false

/-- Primary-VLAN auto-selection of NewVM.run: when the user picked no VLAN and
    the allocation object carries one, use it. -/
def resolvePrimaryVlan (d : VMData) : Option Nat :=
  match d.interface_vlan with
  | some v => some v
  | none =>
    match d.allocation_source, d.ipv4Pfx, d.ipv4Rng with
    | AllocSrc.fromPfx, some p, _ => p.vlan
    | AllocSrc.fromRange, _, some r => r.vlan
    | _, _, _ => none

/-- The VLAN consistency checks of NewVM.run: a primary VLAN differing from
    the VLAN of the allocation object raises. -/
def vlanMismatch (d : VMData) (primaryVlan : Option Nat) : Bool :=
  match primaryVlan with
  | none => false
  | some v =>
    match d.allocation_source, d.ipv4Pfx, d.ipv4Rng with
    | AllocSrc.fromPfx, some p, _ =>
      match p.vlan with | some w => w != v | none => false
    | AllocSrc.fromRange, _, some r =>
      match r.vlan with | some w => w != v | none => false
    | _, _, _ => false

/-- create_interface from NewVM.run: nothing for an empty name; the VLAN only
    sets mode and untagged_vlan on the object; full_clean and save run only
    under commit. -/
def createInterface (commit : Bool) (ifname : String) (vlan : Option Nat) :
    Option String × List String :=
  if ifname == "" then (none, [])
  else (some (ifname ++ (match vlan with | some _ => "" | none => "")),
        if commit then ["iface.save:" ++ ifname] else [])

/-- create_disk from NewVM.run: nothing when the size is missing or zero; an
    empty name defaults to disk-(count+1) where count is the number of disks
    already stored for the VM (always zero under dry-run, since nothing was
    saved); full_clean and save run only under commit. -/
def createDisk (commit : Bool) (savedCount : Nat) (dname : String) (size : Option Nat) :
    Option String × List String :=
  match size with
  | none => (none, [])
  | some sz =>
    if sz == 0 then (none, [])
    else
      let diskName := if dname == "" then "disk-" ++ toString (savedCount + 1) else dname
      (some diskName, if commit then ["disk.save:" ++ diskName] else [])

/-- NewVM.run from create_vm 2.1.py.  Validations raise RuntimeError; every
    full_clean-and-save and the tag/relation writes are guarded by the commit
    flag; allocation only reads the existing IPAddress records.  The second
    component lists the writes performed in order; an error result carries the
    writes already made before the raise. -/
def newVMRun (commit : Bool) (existing : List (String × Option Nat)) (d : VMData) :
    Except String String × List String :=
  if d.allocation_source = AllocSrc.fromPfx ∧ d.ipv4Pfx = none then
    (Except.error "IPv4 allocation source is Prefix, but no Prefix was selected.", [])
  else if d.allocation_source = AllocSrc.fromRange ∧ d.ipv4Rng = none then
    (Except.error "IPv4 allocation source is IP Range, but no IP Range was selected.", [])
  else if vrfMismatch d then
    (Except.error "Selected allocation object is in another VRF.", [])
  else
    let primaryVlan := resolvePrimaryVlan d
    if vlanMismatch d primaryVlan then
      (Except.error "Selected allocation object is associated with another VLAN.", [])
    else
      let evVm := if commit then ["vm.save", "vm.tags.set"] else []
      let evCf :=
        if commit && (d.domain_name != "" || d.dns_name != "") then ["vm.cf.save"] else []
      let evIf := (createInterface commit d.interface_name primaryVlan).2
      let allocRes :=
        match d.allocation_source, d.ipv4Pfx, d.ipv4Rng with
        | AllocSrc.fromPfx, some p, _ => allocate_next_ipv4_from_pfx p
        | AllocSrc.fromRange, _, some r => allocate_next_ipv4_from_range existing d.vrf r
        | _, _, _ => Except.error "unreachable: presence was checked above"
      match allocRes with
      | Except.error e => (Except.error e, evVm ++ evCf ++ evIf)
      | Except.ok allocated =>
        let evIp := if commit then ["ip.save:" ++ allocated, "vm.save.primary_ip4"] else []
        let evN2 :=
          if d.extra_nics ≥ 1 then (createInterface commit d.nic2_name d.nic2_vlan).2
          else []
        let evN3 :=
          if d.extra_nics ≥ 2 then (createInterface commit d.nic3_name d.nic3_vlan).2
          else []
        let rd1 := createDisk commit 0 d.disk1_name d.disk1_size
        let c1 : Nat := if commit && rd1.1.isSome then 1 else 0
        let rd2 := createDisk commit c1 d.disk2_name d.disk2_size
        let c2 := c1 + (if commit && rd2.1.isSome then 1 else 0)
        let rd3 := createDisk commit c2 d.disk3_name d.disk3_size
        let c3 := c2 + (if commit && rd3.1.isSome then 1 else 0)
        let rd4 := createDisk commit c3 d.disk4_name d.disk4_size
        (Except.ok "Done",
         evVm ++ evCf ++ evIf ++ evIp ++ evN2 ++ evN3 ++ rd1.2 ++ rd2.2 ++ rd3.2 ++ rd4.2)

theorem createInterface_dry (ifname : String) (vlan : Option Nat) :
    (createInterface false ifname vlan).2 = [] := by
  unfold createInterface
  split <;> simp

theorem createDisk_dry (c : Nat) (dn : String) (sz : Option Nat) :
    (createDisk false c dn sz).2 = [] := by
  unfold createDisk
  cases sz with
  | none => rfl
  | some s => by_cases h : s == 0 <;> simp [h]

/-- C9: dry-run semantics of NewVM.run: with commit false nothing is saved on
    any input: the VirtualMachine, every VMInterface, the IPAddress and every
    VirtualDisk are only constructed and logged, and the write list is empty
    whether the run completes or raises. -/
theorem newvm_dry_run_no_writes (existing : List (String × Option Nat)) (d : VMData) :
    (newVMRun false existing d).2 = [] := by
  unfold newVMRun
  simp only [Bool.false_and, Bool.and_self, if_false, Bool.false_eq_true,
    createInterface_dry, createDisk_dry]
  split
  · rfl
  split
  · rfl
  split
  · rfl
  split
  · rfl
  split
  · simp
  · simp

/-! ### CBSD Patch Port rename.py: the device loop with fallible saves -/

/-- A patch-panel device as the CBSD rename sees it. -/
structure CDevice where
  name : String
  fronts : List PPort
  rears : List PPort
deriving DecidableEq

/-- _validated_save (validated_save, or full_clean plus save): canSave tells
    which new names pass validation; failure raises, carrying the name. -/
def vsave (canSave : String → Bool) (nm : String) : Except String Unit :=
  if canSave nm then Except.ok () else Except.error nm

/-- The front-port loop with the fallible save.  The loop catches nothing, so
    a raise from _validated_save escapes. -/
def frontPassE (canSave : String → Bool) (idf panel : String) :
    Nat → List PPort → Except String (List String)
  | _, [] => Except.ok []
  | k, p :: ps =>
    let newName := frontName idf panel k
    let needs := !(p.name == newName) || !(p.label == newName)
    if needs then
      match vsave canSave newName with
      | Except.error e => Except.error e
      | Except.ok _ =>
        match frontPassE canSave idf panel (k + 1) ps with
        | Except.error e => Except.error e
        | Except.ok ws => Except.ok (newName :: ws)
    else frontPassE canSave idf panel (k + 1) ps

/-- The rear-port loop with the fallible save. -/
def rearPassE (canSave : String → Bool) (idf panel : String) (clear : Bool) :
    Nat → List PPort → Except String (List String)
  | _, [] => Except.ok []
  | k, p :: ps =>
    let newName := rearName idf panel k
    let needs := !(p.name == newName) || (clear && !(p.label == ""))
    if needs then
      match vsave canSave newName with
      | Except.error e => Except.error e
      | Except.ok _ =>
        match rearPassE canSave idf panel clear (k + 1) ps with
        | Except.error e => Except.error e
        | Except.ok ws => Except.ok (newName :: ws)
    else rearPassE canSave idf panel clear (k + 1) ps

/-- Processing one device inside the transaction: devices without the phrase,
    without an extractable id after it, or without ports are skipped with a
    warning; otherwise the front and rear loops run and any save exception
    propagates. -/
def deviceStep (canSave : String → Bool) (idf : String) (clear : Bool) (dv : CDevice) :
    Except String (List String) :=
  if (searchPhrase none dv.name.data).isNone then Except.ok []
  else
    match extract_patch_panel_id dv.name with
    | none => Except.ok []
    | some panel =>
      if dv.fronts.isEmpty && dv.rears.isEmpty then Except.ok []
      else
        match frontPassE canSave idf panel 1 (sortPorts dv.fronts) with
        | Except.error e => Except.error e
        | Except.ok wf =>
          match rearPassE canSave idf panel clear 1 (sortPorts dv.rears) with
          | Except.error e => Except.error e
          | Except.ok wr => Except.ok (wf ++ wr)

/-- The device loop of RenamePatchPanelPortsCBSD.run: devices in order, any
    exception escapes immediately. -/
def cbsdGo (canSave : String → Bool) (idf : String) (clear : Bool) :
    List CDevice → Except String (List String)
  | [] => Except.ok []
  | dv :: ds =>
    match deviceStep canSave idf clear dv with
    | Except.error e => Except.error e
    | Except.ok w =>
      match cbsdGo canSave idf clear ds with
      | Except.error e => Except.error e
      | Except.ok ws => Except.ok (w ++ ws)

/-- transaction.atomic around the whole device loop: an escaping exception
    rolls the transaction back, so an error outcome persists no writes. -/
def persistedWrites : Except String (List String) → List String
  | Except.ok ws => ws
  | Except.error _ => []

/-- RenamePatchPanelPortsCBSD.run after input validation: the device loop
    inside one atomic transaction. -/
def cbsdRun (canSave : String → Bool) (idf : String) (clear : Bool)
    (devs : List CDevice) : Except String (List String) :=
  cbsdGo canSave idf clear devs

/-- C7 counterexample: errors are not caught per-record everywhere.  With two
    patch panels where only the save for the second panel fails, the CBSD run
    aborts (the second device and everything after it is not completed) and
    the atomic transaction persists nothing, although the first panel had
    already been renamed and saved (alone, it yields one write). -/
theorem cbsd_failure_aborts_and_rolls_back :
    cbsdRun (fun nm => !(nm == "A-2-01")) "A" true
      [{ name := "Patch Panel 1", fronts := [{ id := 0, name := "x", label := "" }], rears := [] },
       { name := "Patch Panel 2", fronts := [{ id := 1, name := "y", label := "" }], rears := [] }] =
      Except.error "A-2-01" ∧
    cbsdRun (fun nm => !(nm == "A-2-01")) "A" true
      [{ name := "Patch Panel 1", fronts := [{ id := 0, name := "x", label := "" }], rears := [] }] =
      Except.ok ["A-1-01"] ∧
    persistedWrites (cbsdRun (fun nm => !(nm == "A-2-01")) "A" true
      [{ name := "Patch Panel 1", fronts := [{ id := 0, name := "x", label := "" }], rears := [] },
       { name := "Patch Panel 2", fronts := [{ id := 1, name := "y", label := "" }], rears := [] }]) =
      [] := by
  refine ⟨by rfl, by rfl, by rfl⟩

theorem cbsdGo_error_of_step (canSave : String → Bool) (idf : String) (clear : Bool)
    (dv : CDevice) (e : String) (he : deviceStep canSave idf clear dv = Except.error e) :
    ∀ (ds1 ds2 : List CDevice),
      ∃ e2, cbsdGo canSave idf clear (ds1 ++ dv :: ds2) = Except.error e2 := by
  intro ds1 ds2
  induction ds1 with
  | nil =>
    refine ⟨e, ?_⟩
    simp [cbsdGo, he]
  | cons a as ih =>
    obtain ⟨e2, h2⟩ := ih
    simp only [List.cons_append, cbsdGo]
    cases h : deviceStep canSave idf clear a with
    | error e3 => exact ⟨e3, rfl⟩
    | ok w => exact ⟨e2, by simp only [List.append_eq, h2]⟩

/-- C7 amended: in relabel_frontports_suffix, errors are handled per row: the
    run decomposes row by row, and a row whose device lookup fails changes
    nothing and stops nothing, so earlier writes stand and later rows are
    still processed.  In the CBSD rename, however, a save failure on any
    device is not caught: it aborts the run wherever it sits in the device
    list and the surrounding atomic transaction persists no writes at all. -/
theorem error_handling_amended :
    (∀ (canSave : String → Bool) (devs : List LPDevice) (rows1 rows2 : List (List String)),
      labelPortsRun canSave devs (rows1 ++ rows2) =
        ((labelPortsRun canSave (labelPortsRun canSave devs rows1).1 rows2).1,
         (labelPortsRun canSave devs rows1).2 ++
           (labelPortsRun canSave (labelPortsRun canSave devs rows1).1 rows2).2)) ∧
    (∀ (canSave : String → Bool) (devs : List LPDevice) (row : List String),
      ¬ ((row.isEmpty || row.all (fun cell => pyStrip cell == "")) = true) →
      ¬ ((decide (row.length < 4) || pyLower (pyStrip (row.headD "")) == "devicename") = true) →
      findDevice devs (pyStrip (row.getD 0 "")) = none →
      lpStepRow canSave devs row = (devs, [])) ∧
    (∀ (canSave : String → Bool) (idf : String) (clear : Bool) (dv : CDevice)
       (ds1 ds2 : List CDevice) (e : String),
      deviceStep canSave idf clear dv = Except.error e →
      persistedWrites (cbsdGo canSave idf clear (ds1 ++ dv :: ds2)) = []) := by
  refine ⟨?_, ?_, ?_⟩
  · intro canSave devs rows1 rows2
    induction rows1 generalizing devs with
    | nil => simp [labelPortsRun]
    | cons r rs ih =>
      simp only [List.cons_append, labelPortsRun, List.append_eq]
      rw [ih]
      simp [List.append_assoc]
  · intro canSave devs row h1 h2 hfind
    simp only [lpStepRow]
    rw [if_neg h1, if_neg h2]
    simp only [List.getD, List.get?_eq_getElem?] at hfind
    simp [hfind]
  · intro canSave idf clear dv ds1 ds2 e he
    obtain ⟨e2, h2⟩ := cbsdGo_error_of_step canSave idf clear dv e he ds1 ds2
    rw [h2]
    rfl

/-- Witness for the amended C7 theorem: a row naming an absent device is a
    no-op on an empty store. -/
theorem error_handling_amended_witness :
    lpStepRow (fun _ => true) [] ["dev1", "p1", "n", "d"] = ([], []) :=
  error_handling_amended.2.1 (fun _ => true) [] ["dev1", "p1", "n", "d"]
    (by decide) (by decide) rfl

end Netbox
